import Mathlib

/-! Loading-page server (`scripts/loading-server.js`)

A shallow embedding of the script and theorems about it.

The script is nineteen lines of JavaScript on top of the Node.js platform:

* line 5: `const file = process.argv[2] || "loading-page.html";`
* line 6: `const html = fs.readFileSync(path.join(__dirname, file));`
* line 7: `const port = process.env.PORT || 8080;`
* lines 9-19: `http.createServer(handler).listen(port, callback)`, where the
  handler calls `res.writeHead(200, {...})` and `res.end(html)` and the
  callback calls `console.log`.

What belongs to the platform and not to the script (the command line, the
environment, `path.join`, the file system, the outcome of the bind) is
collected in a `World` record; the script itself is translated statement by
statement. Every call the script makes on the platform is recorded as an
`Effect`, in program order.
-/

namespace LoadingServer

/-! ## Values -/

/-- Bytes of a Node.js `Buffer`. -/
abbrev Buffer := List (Fin 256)

/-- The fragment of JavaScript values the script computes with: `undefined`
(an absent `process.argv[2]` or `process.env.PORT`), strings, and
non-negative integer numbers (the literal `8080`). -/
inductive Value where
  | undefined : Value
  | str (s : String) : Value
  | num (n : Nat) : Value
  deriving DecidableEq, Repr

/-- JavaScript `ToBoolean` on the fragment: `undefined`, the empty string and
`0` are falsy, everything else is truthy. -/
def Value.truthy : Value → Bool
  | .undefined => false
  | .str s => !(s == "")
  | .num n => !(n == 0)

/-- JavaScript `a || b`: `a` when `a` is truthy, otherwise `b`. -/
def Value.or (a b : Value) : Value :=
  if a.truthy then a else b

/-- JavaScript `ToString` on the fragment, as performed by the template
literal on line 18. -/
def Value.toStr : Value → String
  | .undefined => "undefined"
  | .str s => s
  | .num n => toString n

/-- An entry of `process.argv` or `process.env`: a string when present,
`undefined` when absent. -/
def Value.ofOption : Option String → Value
  | none => .undefined
  | some s => .str s

/-! ## The platform -/

/-- What the script receives from the platform. -/
structure World where
  /-- The value of `process.argv[2]`, `none` when the script is started without argument. -/
  argv2 : Option String
  /-- The value of `__dirname`. -/
  dirname : String
  /-- The value of `process.env.PORT`, `none` when the variable is unset. -/
  envPORT : Option String
  /-- The function `path.join` on two strings. -/
  join : String → String → String
  /-- The function `fs.readFileSync`: the content of the file, `none` when the call throws. -/
  readFileSync : String → Option Buffer
  /-- Whether `server.listen` on the given value ends in the `listening` event. -/
  bind : Value → Bool
  /-- The port the socket is bound to once `server.listen` on the given value has
  succeeded (`server.address().port`), `none` when the server listens on no port. -/
  boundPort : Value → Option Nat

/-- An incoming HTTP request. -/
structure IncomingMessage where
  method : String
  url : String
  headers : List (String × String)
  body : Buffer
  deriving DecidableEq, Repr

/-- Calls of the script on the platform, and the platform's events. -/
inductive Effect where
  | readFileSync (path : String) : Effect
  | createServer : Effect
  | listen (port : Value) : Effect
  | listening : Effect
  | consoleLog (line : String) : Effect
  | writeHead (status : Nat) (headers : List (String × String)) : Effect
  | endWith (data : Buffer) : Effect
  deriving DecidableEq, Repr

/-- The uncaught errors that end the process. -/
inductive Fatal where
  | readError (path : String) : Fatal
  | typeError : Fatal
  | bindError (port : Value) : Fatal
  deriving DecidableEq, Repr

/-! ## The script -/

/-- Line 5: `const file = process.argv[2] || "loading-page.html";` -/
def file (w : World) : Value :=
  (Value.ofOption w.argv2).or (.str "loading-page.html")

/-- The argument of `fs.readFileSync` on line 6: `path.join(__dirname, file)`.
(`path.join` throws a `TypeError` on an argument that is not a string.) -/
def filePath (w : World) : Option String :=
  match file w with
  | .str f => some (w.join w.dirname f)
  | _ => none

/-- Line 7: `const port = process.env.PORT || 8080;` -/
def port (w : World) : Value :=
  (Value.ofOption w.envPORT).or (.num 8080)

/-- The headers object of lines 11-14. -/
def responseHeaders : List (String × String) :=
  [("Content-Type", "text/html"), ("Cache-Control", "no-cache")]

/-- Lines 10-16, the request handler: `res.writeHead(200, {...}); res.end(html);` -/
def handler (html : Buffer) (_req : IncomingMessage) : List Effect :=
  [.writeHead 200 responseHeaders, .endWith html]

/-- Line 18: the text given to `console.log`. -/
def logLine (p : Value) : String :=
  "Loading page server listening on port " ++ p.toStr

/-- The state of the running server: the two constants the handler and the
listener were created with. -/
structure Server where
  html : Buffer
  port : Value
  deriving DecidableEq, Repr

/-- How the module top level ends: with a listening server, or with an
uncaught error. -/
inductive Outcome where
  | serving (srv : Server) : Outcome
  | fatal (e : Fatal) : Outcome
  deriving DecidableEq, Repr

/-- The module top level, lines 5-19, up to the end of the `listen` attempt:
the effects in program order, and the server when the `listening` event has
been emitted or the uncaught error otherwise. The callback of line 18 runs on
the `listening` event. -/
def main (w : World) : List Effect × Outcome :=
  match filePath w with
  | none => ([], .fatal .typeError)
  | some p =>
    match w.readFileSync p with
    | none => ([.readFileSync p], .fatal (.readError p))
    | some html =>
      let port := port w
      if w.bind port then
        ([.readFileSync p, .createServer, .listen port, .listening,
          .consoleLog (logLine port)], .serving ⟨html, port⟩)
      else
        ([.readFileSync p, .createServer, .listen port], .fatal (.bindError port))

/-- The port in use: the port the listening socket is bound to, when the top
level ends with a listening server. -/
def portInUse (w : World) : Option Nat :=
  match (main w).2 with
  | .serving srv => w.boundPort srv.port
  | .fatal _ => none

/-! ## Requests -/

/-- The `res` object of the handler: what has been written to it. -/
structure ServerResponse where
  statusCode : Nat
  headers : List (String × String)
  body : Buffer
  finished : Bool
  deriving DecidableEq, Repr

/-- The `res` object as the handler receives it: status code 200 (Node's
default), no header, no body. -/
def ServerResponse.fresh : ServerResponse :=
  { statusCode := 200, headers := [], body := [], finished := false }

/-- The action of one call on `res`: `writeHead` sets the status code and adds
the headers, `end` writes the data and finishes the response. -/
def ServerResponse.apply (res : ServerResponse) : Effect → ServerResponse
  | .writeHead status headers =>
    if res.finished then res
    else { res with statusCode := status, headers := res.headers ++ headers }
  | .endWith data =>
    if res.finished then res
    else { res with body := res.body ++ data, finished := true }
  | _ => res

/-- The response the handler writes for a request. -/
def respond (html : Buffer) (req : IncomingMessage) : ServerResponse :=
  (handler html req).foldl ServerResponse.apply ServerResponse.fresh

/-- One request on the running server: the handler runs with the server's
`html`; it assigns to neither constant. -/
def Server.handle (srv : Server) (req : IncomingMessage) : Server × List Effect :=
  (srv, handler srv.html req)

/-- A sequence of requests on the running server, one after the other. -/
def Server.serve (srv : Server) : List IncomingMessage → Server × List Effect
  | [] => (srv, [])
  | req :: reqs =>
    let first := srv.handle req
    let rest := first.1.serve reqs
    (rest.1, first.2 ++ rest.2)

/-- The responses of the running server to a sequence of requests, each
written by the handler with the `html` the server holds at that point. -/
def Server.responses (srv : Server) : List IncomingMessage → List ServerResponse
  | [] => []
  | req :: reqs => respond srv.html req :: (srv.handle req).1.responses reqs

/-- The whole process on a sequence of incoming requests: the effects of the
top level, followed by those of the handler when the server is listening. -/
def run (w : World) (reqs : List IncomingMessage) : List Effect :=
  match main w with
  | (t, .serving srv) => t ++ (srv.serve reqs).2
  | (t, .fatal _) => t

/-- The responses the process gives to a sequence of incoming requests. -/
def responses (w : World) (reqs : List IncomingMessage) : List ServerResponse :=
  match (main w).2 with
  | .serving srv => srv.responses reqs
  | .fatal _ => []

/-! ## Observations on a trace -/

/-- The paths given to `fs.readFileSync`, in order. -/
def readPaths : List Effect → List String
  | [] => []
  | .readFileSync p :: t => p :: readPaths t
  | _ :: t => readPaths t

/-- The values given to `listen`, in order. -/
def listenArgs : List Effect → List Value
  | [] => []
  | .listen v :: t => v :: listenArgs t
  | _ :: t => listenArgs t

/-- The lines given to `console.log`, in order. -/
def logs : List Effect → List String
  | [] => []
  | .consoleLog l :: t => l :: logs t
  | _ :: t => logs t

/-- Whether an effect belongs to the listener: its creation, the bind, or a
response. -/
def Effect.isService : Effect → Bool
  | .createServer => true
  | .listen _ => true
  | .listening => true
  | .writeHead _ _ => true
  | .endWith _ => true
  | _ => false

/-! ## Lifecycle -/

/-- The states of the process. -/
inductive Phase where
  | STARTING : Phase
  | SERVING (srv : Server) : Phase
  | FAILED (e : Fatal) : Phase
  deriving DecidableEq, Repr

/-- What makes the process move: the run of the module top level, and an
incoming request. -/
inductive Event where
  | start : Event
  | request (req : IncomingMessage) : Event
  deriving DecidableEq, Repr

/-- The step function of the process; `none` when the event cannot happen in
the state. -/
def step (w : World) : Phase → Event → Option Phase
  | .STARTING, .start =>
    match (main w).2 with
    | .serving srv => some (.SERVING srv)
    | .fatal e => some (.FAILED e)
  | .SERVING srv, .request req => some (.SERVING (srv.handle req).1)
  | _, _ => none

/-- The state after a sequence of events, `none` when one of them cannot happen. -/
def exec (w : World) : Phase → List Event → Option Phase
  | ph, [] => some ph
  | ph, ev :: evs =>
    match step w ph ev with
    | some ph1 => exec w ph1 evs
    | none => none

/-! ## A concrete platform

`path.join` of Node.js on POSIX, used to instantiate `World.join` in concrete
worlds: the non-empty arguments are joined with `/` and the result is
normalised (empty and `.` segments are dropped, `..` removes the segment
before it). -/

/-- The segments of a path between its `/` characters. -/
def splitSlash : List Char → List (List Char)
  | [] => [[]]
  | c :: cs =>
    match splitSlash cs with
    | [] => [[]]
    | seg :: rest => if c = '/' then [] :: seg :: rest else (c :: seg) :: rest

/-- Node's `normalizeString`, on segments: `acc` holds the segments kept so
far, last one first. -/
def normalizeSegments (allowAboveRoot : Bool) : List (List Char) → List (List Char) → List (List Char)
  | acc, [] => acc.reverse
  | acc, seg :: segs =>
    if seg = [] ∨ seg = ['.'] then normalizeSegments allowAboveRoot acc segs
    else if seg = ['.', '.'] then
      match acc with
      | last :: acc' =>
        if last = ['.', '.'] then normalizeSegments allowAboveRoot (seg :: acc) segs
        else normalizeSegments allowAboveRoot acc' segs
      | [] =>
        if allowAboveRoot then normalizeSegments allowAboveRoot [seg] segs
        else normalizeSegments allowAboveRoot [] segs
    else normalizeSegments allowAboveRoot (seg :: acc) segs

/-- Segments joined with `/`. -/
def joinSlash : List (List Char) → List Char
  | [] => []
  | [seg] => seg
  | seg :: segs => seg ++ '/' :: joinSlash segs

/-- Node's `path.posix.normalize`. -/
def posixNormalize (path : List Char) : List Char :=
  if path = [] then ['.']
  else
    let isAbsolute := path.head? = some '/'
    let trailingSeparator := path.getLast? = some '/'
    let body := joinSlash (normalizeSegments (!isAbsolute) [] (splitSlash path))
    if body = [] then
      if isAbsolute then ['/'] else if trailingSeparator then ['.', '/'] else ['.']
    else
      let body := if trailingSeparator then body ++ ['/'] else body
      if isAbsolute then '/' :: body else body

/-- Node's `path.posix.join` on two arguments. -/
def posixJoin (a b : String) : String :=
  let parts := [a.data, b.data].filter (fun p => p ≠ [])
  if parts = [] then "." else String.mk (posixNormalize (joinSlash parts))

/-- The page of the example scenario: `<html><body>Loading...</body></html>`. -/
def loadingPage : Buffer :=
  [60, 104, 116, 109, 108, 62, 60, 98, 111, 100, 121, 62, 76, 111, 97, 100, 105, 110, 103,
   46, 46, 46, 60, 47, 98, 111, 100, 121, 62, 60, 47, 104, 116, 109, 108, 62]

/-- A file system with two files next to the script: `loading-page.html`, and
`custom.html` holding `OK`. -/
def scriptsDir (path : String) : Option Buffer :=
  if path = "/srv/scripts/loading-page.html" then some loadingPage
  else if path = "/srv/scripts/custom.html" then some [79, 75]
  else none

/-- A host on which every bind succeeds except on `70000` and on `80`. -/
def freeHost (v : Value) : Bool :=
  !(v == .str "70000" || v == .str "80")

/-- The number a text of decimal digits stands for, continuing from `acc`. -/
def decimalFrom : Nat → List Char → Option Nat
  | acc, [] => some acc
  | acc, c :: cs =>
    if c.isDigit then decimalFrom (acc * 10 + (c.toNat - '0'.toNat)) cs else none

/-- The number a non-empty text of decimal digits stands for. -/
def decimalValue (s : List Char) : Option Nat :=
  if s = [] then none else decimalFrom 0 s

/-- The port the sockets of the host get: the port asked for, given as a
number or as its decimal text, and the port 38885 when 0 is asked for (the
operating system then picks a free port); a text that is no number names a
pipe, and the server then listens on no port. -/
def hostPort : Value → Option Nat
  | .undefined => some 38885
  | .num n => some (if n = 0 then 38885 else n)
  | .str s =>
    match decimalValue s.data with
    | some n => some (if n = 0 then 38885 else n)
    | none => none

/-- The script started as `node loading-server.js`, `PORT` unset. -/
def plainWorld : World :=
  { argv2 := none, dirname := "/srv/scripts", envPORT := none, join := posixJoin,
    readFileSync := scriptsDir, bind := freeHost, boundPort := hostPort }

/-- The script started as `PORT=9090 node loading-server.js custom.html`. -/
def customWorld : World :=
  { plainWorld with argv2 := some "custom.html", envPORT := some "9090" }

/-- A simple request. -/
def getRoot : IncomingMessage :=
  { method := "GET", url := "/", headers := [], body := [] }

/-- Another request, with another method, path, headers and body. -/
def postAnything : IncomingMessage :=
  { method := "POST", url := "/anything", headers := [("Accept", "*/*")], body := [1, 2, 3] }

/-- The script started as `node loading-server.js ""`: an argument is given,
and it is the empty string. -/
def emptyArgWorld : World :=
  { plainWorld with argv2 := some "" }

/-- The script started as `PORT= node loading-server.js`: `PORT` is set, to
the empty string. -/
def emptyPortWorld : World :=
  { plainWorld with envPORT := some "" }

/-- The script started as `PORT=0 node loading-server.js`. -/
def zeroPortWorld : World :=
  { plainWorld with envPORT := some "0" }

/-- The script started as `PORT=80 node loading-server.js`, on a host where
the bind on 80 is rejected. -/
def busyWorld : World :=
  { plainWorld with envPORT := some "80" }

/-- The script started as `node loading-server.js nope.html`, a file that
does not exist. -/
def missingWorld : World :=
  { plainWorld with argv2 := some "nope.html" }

/-! ## Lemmas on the script -/

theorem Value.or_undefined (b : Value) : Value.or .undefined b = b := rfl

theorem Value.or_str_empty (b : Value) : Value.or (.str "") b = b := rfl

theorem Value.or_str_of_ne (s : String) (b : Value) (h : s ≠ "") :
    Value.or (.str s) b = .str s := by
  simp [Value.or, Value.truthy, h]

theorem file_of_arg (w : World) (a : String) (h : w.argv2 = some a) (ha : a ≠ "") :
    file w = .str a := by
  simp [file, h, Value.ofOption, Value.or_str_of_ne a _ ha]

theorem file_of_none (w : World) (h : w.argv2 = none) :
    file w = .str "loading-page.html" := by
  simp [file, h, Value.ofOption, Value.or_undefined]

theorem file_of_empty (w : World) (h : w.argv2 = some "") :
    file w = .str "loading-page.html" := by
  simp [file, h, Value.ofOption, Value.or_str_empty]

/-- The value of `file` is always a string, so `path.join` never throws. -/
theorem file_is_str (w : World) : ∃ f, file w = .str f := by
  cases h : w.argv2 with
  | none => exact ⟨_, file_of_none w h⟩
  | some a =>
    by_cases ha : a = ""
    · subst ha
      exact ⟨_, file_of_empty w h⟩
    · exact ⟨_, file_of_arg w a h ha⟩

theorem filePath_of_file (w : World) (f : String) (h : file w = .str f) :
    filePath w = some (w.join w.dirname f) := by
  simp [filePath, h]

theorem filePath_isSome (w : World) : ∃ p, filePath w = some p := by
  obtain ⟨f, hf⟩ := file_is_str w
  exact ⟨_, filePath_of_file w f hf⟩

theorem port_of_none (w : World) (h : w.envPORT = none) : port w = .num 8080 := by
  simp [port, h, Value.ofOption, Value.or_undefined]

theorem port_of_empty (w : World) (h : w.envPORT = some "") : port w = .num 8080 := by
  simp [port, h, Value.ofOption, Value.or_str_empty]

theorem port_of_env (w : World) (s : String) (h : w.envPORT = some s) (hs : s ≠ "") :
    port w = .str s := by
  simp [port, h, Value.ofOption, Value.or_str_of_ne s _ hs]

theorem main_of_read_error (w : World) (p : String) (hp : filePath w = some p)
    (hr : w.readFileSync p = none) :
    main w = ([.readFileSync p], .fatal (.readError p)) := by
  simp [main, hp, hr]

theorem main_of_bind_error (w : World) (p : String) (html : Buffer)
    (hp : filePath w = some p) (hr : w.readFileSync p = some html)
    (hb : w.bind (port w) = false) :
    main w = ([.readFileSync p, .createServer, .listen (port w)],
      .fatal (.bindError (port w))) := by
  simp [main, hp, hr, hb]

theorem main_of_listening (w : World) (p : String) (html : Buffer)
    (hp : filePath w = some p) (hr : w.readFileSync p = some html)
    (hb : w.bind (port w) = true) :
    main w = ([.readFileSync p, .createServer, .listen (port w), .listening,
      .consoleLog (logLine (port w))], .serving ⟨html, port w⟩) := by
  simp [main, hp, hr, hb]

/-- The three ways the top level can end. -/
theorem main_cases (w : World) :
    ∃ p, filePath w = some p ∧
      ((w.readFileSync p = none ∧ main w = ([.readFileSync p], .fatal (.readError p))) ∨
       (∃ html, w.readFileSync p = some html ∧ w.bind (port w) = false ∧
          main w = ([.readFileSync p, .createServer, .listen (port w)],
            .fatal (.bindError (port w)))) ∨
       (∃ html, w.readFileSync p = some html ∧ w.bind (port w) = true ∧
          main w = ([.readFileSync p, .createServer, .listen (port w), .listening,
            .consoleLog (logLine (port w))], .serving ⟨html, port w⟩))) := by
  obtain ⟨p, hp⟩ := filePath_isSome w
  refine ⟨p, hp, ?_⟩
  cases hr : w.readFileSync p with
  | none => exact Or.inl ⟨rfl, main_of_read_error w p hp hr⟩
  | some html =>
    cases hb : w.bind (port w) with
    | false => exact Or.inr (Or.inl ⟨html, rfl, rfl, main_of_bind_error w p html hp hr hb⟩)
    | true => exact Or.inr (Or.inr ⟨html, rfl, rfl, main_of_listening w p html hp hr hb⟩)

theorem serve_fst (srv : Server) (reqs : List IncomingMessage) : (srv.serve reqs).1 = srv := by
  induction reqs with
  | nil => rfl
  | cons req reqs ih => simpa [Server.serve, Server.handle] using ih

theorem serve_snd_cons (srv : Server) (req : IncomingMessage) (reqs : List IncomingMessage) :
    (srv.serve (req :: reqs)).2 = handler srv.html req ++ (srv.serve reqs).2 := by
  simp [Server.serve, Server.handle]

theorem respond_eq (html : Buffer) (req : IncomingMessage) :
    respond html req =
      { statusCode := 200, headers := responseHeaders, body := html, finished := true } := by
  simp [respond, handler, ServerResponse.apply, ServerResponse.fresh]

theorem mem_responses (srv : Server) (reqs : List IncomingMessage) (r : ServerResponse)
    (h : r ∈ srv.responses reqs) :
    r = { statusCode := 200, headers := responseHeaders, body := srv.html, finished := true } := by
  induction reqs with
  | nil => simp [Server.responses] at h
  | cons req reqs ih =>
    simp only [Server.responses, Server.handle, List.mem_cons] at h
    rcases h with h | h
    · rw [h, respond_eq]
    · exact ih h

theorem responses_length (srv : Server) (reqs : List IncomingMessage) :
    (srv.responses reqs).length = reqs.length := by
  induction reqs with
  | nil => rfl
  | cons req reqs ih => simpa [Server.responses, Server.handle] using ih

theorem logs_serve (srv : Server) (reqs : List IncomingMessage) :
    logs (srv.serve reqs).2 = [] := by
  induction reqs with
  | nil => rfl
  | cons req reqs ih =>
    rw [serve_snd_cons]
    simpa [handler, logs] using ih

theorem readPaths_serve (srv : Server) (reqs : List IncomingMessage) :
    readPaths (srv.serve reqs).2 = [] := by
  induction reqs with
  | nil => rfl
  | cons req reqs ih =>
    rw [serve_snd_cons]
    simpa [handler, readPaths] using ih

theorem logs_append (t u : List Effect) : logs (t ++ u) = logs t ++ logs u := by
  induction t with
  | nil => rfl
  | cons e t ih => cases e <;> simp [logs, ih]

theorem readPaths_append (t u : List Effect) :
    readPaths (t ++ u) = readPaths t ++ readPaths u := by
  induction t with
  | nil => rfl
  | cons e t ih => cases e <;> simp [readPaths, ih]

/-- The decimal text of a number is not the empty string. -/
theorem toDigitsCore_ne_nil (fuel n : Nat) (ds : List Char) (h : ds ≠ []) :
    Nat.toDigitsCore 10 fuel n ds ≠ [] := by
  induction fuel generalizing n ds with
  | zero => simpa [Nat.toDigitsCore] using h
  | succ fuel ih =>
    simp only [Nat.toDigitsCore]
    split
    · simp
    · exact ih _ _ (by simp)

theorem toString_nat_ne_empty (n : Nat) : toString n ≠ "" := by
  have h : Nat.toDigits 10 n ≠ [] := by
    simp only [Nat.toDigits, Nat.toDigitsCore]
    split
    · simp
    · exact toDigitsCore_ne_nil _ _ _ (by simp)
  intro he
  apply h
  have h2 : (toString n).data = ("" : String).data := by rw [he]
  simpa [toString, Nat.repr, List.asString] using h2

theorem readPaths_main (w : World) (p : String) (hp : filePath w = some p) :
    readPaths (main w).1 = [p] := by
  obtain ⟨q, hq, h⟩ := main_cases w
  have hpq : q = p := by
    rw [hq] at hp
    exact Option.some.inj hp
  subst hpq
  rcases h with ⟨_, hm⟩ | ⟨_, _, _, hm⟩ | ⟨_, _, _, hm⟩ <;> simp [hm, readPaths]

theorem listenArgs_main (w : World) (v : Value) (hv : v ∈ listenArgs (main w).1) :
    v = port w := by
  obtain ⟨q, _, h⟩ := main_cases w
  rcases h with ⟨_, hm⟩ | ⟨_, _, _, hm⟩ | ⟨_, _, _, hm⟩
  · simp [hm, listenArgs] at hv
  · simpa [hm, listenArgs] using hv
  · simpa [hm, listenArgs] using hv

theorem listenArgs_main_of_read (w : World) (p : String) (html : Buffer)
    (hp : filePath w = some p) (hr : w.readFileSync p = some html) :
    listenArgs (main w).1 = [port w] := by
  cases hb : w.bind (port w) with
  | false => simp [main_of_bind_error w p html hp hr hb, listenArgs]
  | true => simp [main_of_listening w p html hp hr hb, listenArgs]

/-- Once the file is read, `listen` is called with the resolved port and the
bind alone decides how the top level ends. -/
theorem main_decided_by_bind (w : World) (v : Value) (p : String) (html : Buffer)
    (hport : port w = v) (hp : filePath w = some p) (hr : w.readFileSync p = some html) :
    listenArgs (main w).1 = [v] ∧
    ((main w).2 = .serving ⟨html, v⟩ ↔ w.bind v = true) ∧
    ((main w).2 = .fatal (.bindError v) ↔ w.bind v = false) := by
  subst hport
  refine ⟨listenArgs_main_of_read w p html hp hr, ?_, ?_⟩
  · cases hb : w.bind (port w) with
    | false => simp [main_of_bind_error w p html hp hr hb]
    | true => simp [main_of_listening w p html hp hr hb]
  · cases hb : w.bind (port w) with
    | false => simp [main_of_bind_error w p html hp hr hb]
    | true => simp [main_of_listening w p html hp hr hb]

/-- The log line for the default port, and for a `PORT` string. -/
theorem logLine_default : logLine (.num 8080) = "Loading page server listening on port 8080" := by
  decide

theorem logLine_str (s : String) :
    logLine (.str s) = "Loading page server listening on port " ++ s := rfl

/-- The top level does not depend on the port the socket gets. -/
theorem main_boundPort (w : World) (f : Value → Option Nat) :
    main { w with boundPort := f } = main w := rfl

/-- What a listening outcome of the top level says about the world. -/
theorem main_serving_inv (w : World) (t : List Effect) (srv : Server)
    (h : main w = (t, .serving srv)) :
    ∃ p, filePath w = some p ∧ w.readFileSync p = some srv.html ∧
      w.bind (port w) = true ∧ srv.port = port w ∧
      t = [.readFileSync p, .createServer, .listen (port w), .listening,
        .consoleLog (logLine (port w))] := by
  obtain ⟨p, hp, hc⟩ := main_cases w
  refine ⟨p, hp, ?_⟩
  rcases hc with ⟨_, hm⟩ | ⟨_, _, _, hm⟩ | ⟨html, hr, hb, hm⟩
  · rw [hm] at h
    simp at h
  · rw [hm] at h
    simp at h
  · rw [hm] at h
    simp only [Prod.mk.injEq, Outcome.serving.injEq] at h
    obtain ⟨ht, hs⟩ := h
    subst hs
    exact ⟨hr, hb, rfl, ht.symm⟩

/-! ## The request handler -/

/-- C1: for every loaded page `html` and all requests `req`, `req'`, the
response the handler writes has status 200 and body `html`, and is the same
for `req` and `req'`; and when the top level of a world ends with a listening
server, the `html` of that server is what `fs.readFileSync` returned for the
configured file, and every response of the process has status 200 and that
body. -/
theorem handler_response_constant (w : World) (html : Buffer) (req req' : IncomingMessage) :
    ((respond html req).statusCode = 200 ∧ (respond html req).body = html ∧
      respond html req = respond html req') ∧
    (∀ srv, (main w).2 = .serving srv →
      (∃ p, filePath w = some p ∧ w.readFileSync p = some srv.html) ∧
      ∀ reqs, (responses w reqs).length = reqs.length ∧
        ∀ r ∈ responses w reqs, r.statusCode = 200 ∧ r.body = srv.html) := by
  refine ⟨⟨by simp [respond_eq], by simp [respond_eq], by simp [respond_eq]⟩, ?_⟩
  intro srv hsrv
  obtain ⟨p, hp, hr, _⟩ := main_serving_inv w (main w).1 srv (by rw [← hsrv])
  refine ⟨⟨p, hp, hr⟩, ?_⟩
  intro reqs
  refine ⟨by simp [responses, hsrv, responses_length], ?_⟩
  intro r hmem
  have hmem' : r ∈ srv.responses reqs := by simpa [responses, hsrv] using hmem
  rw [mem_responses srv reqs r hmem']
  exact ⟨rfl, rfl⟩

/-- C1 at `PORT=9090 node loading-server.js custom.html`, for a GET and a POST. -/
theorem handler_response_constant_witness :
    (respond [79, 75] getRoot = respond [79, 75] postAnything) ∧
    (∃ p, filePath customWorld = some p ∧ customWorld.readFileSync p = some [79, 75]) ∧
    ((responses customWorld [getRoot, postAnything]).length = 2 ∧
      ∀ r ∈ responses customWorld [getRoot, postAnything],
        r.statusCode = 200 ∧ r.body = [79, 75]) :=
  have h := handler_response_constant customWorld [79, 75] getRoot postAnything
  have h2 := h.2 ⟨[79, 75], .str "9090"⟩ (by decide)
  ⟨h.1.2.2, h2.1, h2.2 [getRoot, postAnything]⟩

/-- C2: for every request, the headers the handler writes are exactly
`Content-Type: text/html` and `Cache-Control: no-cache`, in one `writeHead`
call, and the response carries these two headers and no other. -/
theorem handler_headers_exact (html : Buffer) (req : IncomingMessage) :
    (respond html req).headers =
      [("Content-Type", "text/html"), ("Cache-Control", "no-cache")] ∧
    (respond html req).headers.lookup "Content-Type" = some "text/html" ∧
    (respond html req).headers.lookup "Cache-Control" = some "no-cache" ∧
    (respond html req).headers.length = 2 ∧
    (∀ status headers, Effect.writeHead status headers ∈ handler html req →
      headers = [("Content-Type", "text/html"), ("Cache-Control", "no-cache")]) := by
  refine ⟨by simp [respond_eq, responseHeaders], ?_, ?_, by simp [respond_eq, responseHeaders], ?_⟩
  · rw [respond_eq]
    show List.lookup "Content-Type" responseHeaders = some "text/html"
    decide
  · rw [respond_eq]
    show List.lookup "Cache-Control" responseHeaders = some "no-cache"
    decide
  · intro status headers h
    simp [handler, responseHeaders] at h
    exact h.2

/-! ## Path and port resolution -/

/-- C5, as stated, fails when the argument is the empty string: the script is
started with `""` as argument, and the path read is the join of the directory
with `loading-page.html`, not the join of the directory with the argument. -/
theorem file_path_empty_arg_counterexample :
    emptyArgWorld.argv2 = some "" ∧
    readPaths (main emptyArgWorld).1 = ["/srv/scripts/loading-page.html"] ∧
    emptyArgWorld.join emptyArgWorld.dirname "" = "/srv/scripts" ∧
    readPaths (main emptyArgWorld).1 ≠ [emptyArgWorld.join emptyArgWorld.dirname ""] := by
  decide

/-- C5, amended: the path read is the join of the script's directory with the
argument when a non-empty argument is given, and the join of the script's
directory with `loading-page.html` when no argument is given or the argument
is the empty string; it is the only path read. -/
theorem file_path_resolution (w : World) :
    (∀ a, w.argv2 = some a → a ≠ "" →
      filePath w = some (w.join w.dirname a) ∧
      readPaths (main w).1 = [w.join w.dirname a]) ∧
    (w.argv2 = none ∨ w.argv2 = some "" →
      filePath w = some (w.join w.dirname "loading-page.html") ∧
      readPaths (main w).1 = [w.join w.dirname "loading-page.html"]) := by
  constructor
  · intro a h ha
    have hp := filePath_of_file w a (file_of_arg w a h ha)
    exact ⟨hp, readPaths_main w _ hp⟩
  · intro h
    have hf : file w = .str "loading-page.html" := by
      rcases h with h | h
      · exact file_of_none w h
      · exact file_of_empty w h
    have hp := filePath_of_file w _ hf
    exact ⟨hp, readPaths_main w _ hp⟩

/-- C5, amended, with the argument `custom.html` and without argument. -/
theorem file_path_resolution_witness :
    (filePath customWorld = some "/srv/scripts/custom.html" ∧
      readPaths (main customWorld).1 = ["/srv/scripts/custom.html"]) ∧
    (filePath plainWorld = some "/srv/scripts/loading-page.html" ∧
      readPaths (main plainWorld).1 = ["/srv/scripts/loading-page.html"]) :=
  ⟨(file_path_resolution customWorld).1 "custom.html" (by decide) (by decide),
   (file_path_resolution plainWorld).2 (Or.inl (by decide))⟩

/-- C4, as stated, fails when `PORT` is set to a valid port number: with
`PORT=9090` the resolved port, and the value handed to `listen`, is the string
`"9090"`; it is not the integer 9090, nor any integer. -/
theorem port_not_integer_counterexample :
    customWorld.envPORT = some "9090" ∧
    port customWorld = .str "9090" ∧
    listenArgs (main customWorld).1 = [.str "9090"] ∧
    port customWorld ≠ .num 9090 ∧
    ¬ ∃ n, port customWorld = .num n := by
  refine ⟨by decide, by decide, by decide, by decide, ?_⟩
  rintro ⟨n, hn⟩
  have h : port customWorld = .str "9090" := by decide
  rw [h] at hn
  exact Value.noConfusion hn

/-- C4, amended: when `PORT` is unset the resolved port, and every value handed
to `listen`, is the integer 8080; when `PORT` is set to the decimal text of a
port number (0 to 65535) the resolved port, and every value handed to
`listen`, is that text, a string, and not the integer; and `listen` is called
once with the resolved port when the file has been read. -/
theorem port_resolution (w : World) :
    (w.envPORT = none →
      port w = .num 8080 ∧ ∀ v ∈ listenArgs (main w).1, v = .num 8080) ∧
    (∀ n, n ≤ 65535 → w.envPORT = some (toString n) →
      port w = .str (toString n) ∧ port w ≠ .num n ∧
      ∀ v ∈ listenArgs (main w).1, v = .str (toString n)) ∧
    (∀ p html, filePath w = some p → w.readFileSync p = some html →
      listenArgs (main w).1 = [port w]) := by
  refine ⟨?_, ?_, ?_⟩
  · intro h
    have hp := port_of_none w h
    refine ⟨hp, ?_⟩
    intro v hv
    rw [listenArgs_main w v hv, hp]
  · intro n _ h
    have hp := port_of_env w _ h (toString_nat_ne_empty n)
    refine ⟨hp, by rw [hp]; exact fun hc => Value.noConfusion hc, ?_⟩
    intro v hv
    rw [listenArgs_main w v hv, hp]
  · intro p html hp hr
    exact listenArgs_main_of_read w p html hp hr

/-- C4, amended, with `PORT` unset and with `PORT=9090`. -/
theorem port_resolution_witness :
    (port plainWorld = .num 8080 ∧ ∀ v ∈ listenArgs (main plainWorld).1, v = .num 8080) ∧
    (port customWorld = .str (toString 9090) ∧ port customWorld ≠ .num 9090 ∧
      ∀ v ∈ listenArgs (main customWorld).1, v = .str (toString 9090)) ∧
    listenArgs (main customWorld).1 = [port customWorld] :=
  ⟨(port_resolution plainWorld).1 (by decide),
   (port_resolution customWorld).2.1 9090 (by decide) (by decide),
   (port_resolution customWorld).2.2 "/srv/scripts/custom.html" [79, 75]
     (by decide) (by decide)⟩

/-- C6, as stated, fails when `PORT` is set to the empty string: the value
handed to `listen` is the number 8080, not the value of `PORT`. -/
theorem port_empty_counterexample :
    emptyPortWorld.envPORT = some "" ∧
    listenArgs (main emptyPortWorld).1 = [.num 8080] ∧
    listenArgs (main emptyPortWorld).1 ≠ [.str ""] := by
  decide

/-- C6, amended: for every non-empty value `s` of `PORT`, numeric or not, in
range or not, the resolved port is `s` unchanged and no other value is handed
to `listen`; once the file is read, `listen` is called with `s` and the top
level ends with a listening server exactly when the bind accepts `s`, and
with a bind error exactly when it rejects `s`. When `PORT` is set to the empty
string the same holds with the number 8080 in the place of `s`: 8080 is the
resolved port and the only value handed to `listen`, and the bind on 8080
alone decides how the top level ends. -/
theorem port_not_validated (w : World) :
    (∀ s, w.envPORT = some s → s ≠ "" →
      port w = .str s ∧
      (∀ v ∈ listenArgs (main w).1, v = .str s) ∧
      (∀ p html, filePath w = some p → w.readFileSync p = some html →
        listenArgs (main w).1 = [.str s] ∧
        ((main w).2 = .serving ⟨html, .str s⟩ ↔ w.bind (.str s) = true) ∧
        ((main w).2 = .fatal (.bindError (.str s)) ↔ w.bind (.str s) = false))) ∧
    (w.envPORT = some "" →
      port w = .num 8080 ∧
      (∀ v ∈ listenArgs (main w).1, v = .num 8080) ∧
      (∀ p html, filePath w = some p → w.readFileSync p = some html →
        listenArgs (main w).1 = [.num 8080] ∧
        ((main w).2 = .serving ⟨html, .num 8080⟩ ↔ w.bind (.num 8080) = true) ∧
        ((main w).2 = .fatal (.bindError (.num 8080)) ↔ w.bind (.num 8080) = false))) := by
  constructor
  · intro s h hs
    have hport := port_of_env w s h hs
    refine ⟨hport, ?_, ?_⟩
    · intro v hv
      rw [listenArgs_main w v hv, hport]
    · intro p html hp hr
      exact main_decided_by_bind w (.str s) p html hport hp hr
  · intro h
    have hport := port_of_empty w h
    refine ⟨hport, ?_, ?_⟩
    · intro v hv
      rw [listenArgs_main w v hv, hport]
    · intro p html hp hr
      exact main_decided_by_bind w (.num 8080) p html hport hp hr

/-- C6, amended, with `PORT=80` on a host that rejects the bind on 80, and
with `PORT` set to the empty string. -/
theorem port_not_validated_witness :
    (busyWorld.envPORT = some "80" ∧ port busyWorld = .str "80" ∧
      listenArgs (main busyWorld).1 = [.str "80"] ∧
      ((main busyWorld).2 = .fatal (.bindError (.str "80")) ↔
        busyWorld.bind (.str "80") = false)) ∧
    (emptyPortWorld.envPORT = some "" ∧ port emptyPortWorld = .num 8080 ∧
      listenArgs (main emptyPortWorld).1 = [.num 8080] ∧
      ((main emptyPortWorld).2 = .serving ⟨loadingPage, .num 8080⟩ ↔
        emptyPortWorld.bind (.num 8080) = true)) :=
  have h := (port_not_validated busyWorld).1 "80" (by decide) (by decide)
  have h2 := h.2.2 "/srv/scripts/loading-page.html" loadingPage (by decide) (by decide)
  have k := (port_not_validated emptyPortWorld).2 (by decide)
  have k2 := k.2.2 "/srv/scripts/loading-page.html" loadingPage (by decide) (by decide)
  ⟨⟨by decide, h.1, h2.1, h2.2.2⟩, ⟨by decide, k.1, k2.1, k2.2.1⟩⟩

/-- C10: the resolved port is the number 8080 if and only if `PORT` is unset
or is the empty string, and for every non-empty `PORT` string (`"0"` and
non-numeric text included) the resolved port is that string itself. -/
theorem port_fallback_falsy (w : World) :
    (port w = .num 8080 ↔ (w.envPORT = none ∨ w.envPORT = some "")) ∧
    (∀ s, w.envPORT = some s → s ≠ "" → port w = .str s) := by
  refine ⟨⟨?_, ?_⟩, fun s h hs => port_of_env w s h hs⟩
  · intro hp
    cases h : w.envPORT with
    | none => exact Or.inl rfl
    | some s =>
      by_cases hs : s = ""
      · exact Or.inr (by rw [hs])
      · rw [port_of_env w s h hs] at hp
        exact Value.noConfusion hp
  · rintro (h | h)
    · exact port_of_none w h
    · exact port_of_empty w h

/-- C10 with `PORT=0` and with `PORT` set to the empty string. -/
theorem port_fallback_falsy_witness :
    port zeroPortWorld = .str "0" ∧ port emptyPortWorld = .num 8080 :=
  ⟨(port_fallback_falsy zeroPortWorld).2 "0" (by decide) (by decide),
   (port_fallback_falsy emptyPortWorld).1.2 (Or.inr (by decide))⟩

/-! ## Startup, serving and the lifecycle -/

theorem step_failed (w : World) (e : Fatal) (ev : Event) : step w (.FAILED e) ev = none := by
  cases ev <;> rfl

theorem step_serving_request (w : World) (srv : Server) (req : IncomingMessage) :
    step w (.SERVING srv) (.request req) = some (.SERVING srv) := rfl

theorem step_serving_start (w : World) (srv : Server) : step w (.SERVING srv) .start = none := rfl

theorem step_starting_request (w : World) (req : IncomingMessage) :
    step w .STARTING (.request req) = none := rfl

/-- A run from `SERVING` is made of requests and stays in the same state. -/
theorem exec_serving (w : World) (srv : Server) (evs : List Event) (ph : Phase)
    (h : exec w (.SERVING srv) evs = some ph) :
    ph = .SERVING srv ∧ ∃ reqs : List IncomingMessage, evs = reqs.map Event.request := by
  induction evs with
  | nil =>
    simp only [exec, Option.some.injEq] at h
    exact ⟨h.symm, [], rfl⟩
  | cons ev evs ih =>
    cases ev with
    | start => simp [exec, step] at h
    | request req =>
      simp only [exec, step_serving_request] at h
      obtain ⟨hph, reqs, hreqs⟩ := ih h
      exact ⟨hph, req :: reqs, by simp [hreqs]⟩

theorem exec_serving_requests (w : World) (srv : Server) (reqs : List IncomingMessage) :
    exec w (.SERVING srv) (reqs.map Event.request) = some (.SERVING srv) := by
  induction reqs with
  | nil => rfl
  | cons req reqs ih => simpa [exec, step_serving_request] using ih

theorem exec_failed (w : World) (e : Fatal) (evs : List Event) (ph : Phase)
    (h : exec w (.FAILED e) evs = some ph) : ph = .FAILED e ∧ evs = [] := by
  cases evs with
  | nil =>
    simp only [exec, Option.some.injEq] at h
    exact ⟨h.symm, rfl⟩
  | cons ev evs => simp [exec, step_failed] at h

/-- C3: if reading the configured (or default) file fails, the top level ends
with the read error after the single effect `readFileSync`: no server is
created, `listen` is not called, and for every sequence of incoming requests
the process has no other effect and gives no response; in the lifecycle the
process goes from `STARTING` to `FAILED`, from where no request is handled. -/
theorem read_error_no_service (w : World) (h : (filePath w).bind w.readFileSync = none) :
    ∃ p, filePath w = some p ∧
      main w = ([.readFileSync p], .fatal (.readError p)) ∧
      listenArgs (main w).1 = [] ∧
      (∀ reqs, run w reqs = [.readFileSync p] ∧ responses w reqs = [] ∧
        ∀ e ∈ run w reqs, e.isService = false) ∧
      step w .STARTING .start = some (.FAILED (.readError p)) ∧
      ∀ req, step w (.FAILED (.readError p)) (.request req) = none := by
  obtain ⟨p, hp⟩ := filePath_isSome w
  have hr : w.readFileSync p = none := by simpa [hp] using h
  have hm := main_of_read_error w p hp hr
  refine ⟨p, hp, hm, by simp [hm, listenArgs], ?_, by simp [step, hm], fun req => rfl⟩
  intro reqs
  have hrun : run w reqs = [.readFileSync p] := by simp [run, hm]
  refine ⟨hrun, by simp [responses, hm], ?_⟩
  intro e he
  rw [hrun] at he
  simp only [List.mem_singleton] at he
  rw [he]
  rfl

/-- C3 at `node loading-server.js nope.html`, a file that does not exist. -/
theorem read_error_no_service_witness :
    (filePath missingWorld).bind missingWorld.readFileSync = none ∧
    ∃ p, filePath missingWorld = some p ∧
      main missingWorld = ([.readFileSync p], .fatal (.readError p)) ∧
      listenArgs (main missingWorld).1 = [] ∧
      (∀ reqs, run missingWorld reqs = [.readFileSync p] ∧ responses missingWorld reqs = [] ∧
        ∀ e ∈ run missingWorld reqs, e.isService = false) ∧
      step missingWorld .STARTING .start = some (.FAILED (.readError p)) ∧
      ∀ req, step missingWorld (.FAILED (.readError p)) (.request req) = none :=
  ⟨by decide, read_error_no_service missingWorld (by decide)⟩

/-- C7: when the top level ends with a listening server, the file has been
read exactly once, as the first effect and so before the server is created
and `listen` is called, and the server holds the bytes read; for every finite
sequence of requests no file is read again, the server after the sequence
holds the same bytes, there is one response per request, and any two
responses are equal (same status, headers and body), with the bytes read as
body. -/
theorem page_loaded_once (w : World) (t : List Effect) (srv : Server)
    (h : main w = (t, .serving srv)) :
    ∃ p, filePath w = some p ∧ w.readFileSync p = some srv.html ∧
      (∃ rest, t = .readFileSync p :: .createServer :: .listen (port w) :: rest ∧
        readPaths rest = []) ∧
      ∀ reqs : List IncomingMessage,
        readPaths (run w reqs) = [p] ∧
        (srv.serve reqs).1 = srv ∧ (srv.serve reqs).1.html = srv.html ∧
        exec w .STARTING (.start :: reqs.map Event.request) = some (.SERVING srv) ∧
        (responses w reqs).length = reqs.length ∧
        ∀ r1 ∈ responses w reqs, ∀ r2 ∈ responses w reqs,
          r1 = r2 ∧ r1.statusCode = r2.statusCode ∧ r1.headers = r2.headers ∧
          r1.body = r2.body ∧ r1.body = srv.html := by
  obtain ⟨p, hp, hr, _, _, ht⟩ := main_serving_inv w t srv h
  refine ⟨p, hp, hr, ⟨_, ht, rfl⟩, ?_⟩
  intro reqs
  have hrun : run w reqs = t ++ (srv.serve reqs).2 := by simp [run, h]
  have hresp : responses w reqs = srv.responses reqs := by simp [responses, h]
  refine ⟨?_, serve_fst srv reqs, by rw [serve_fst], ?_, ?_, ?_⟩
  · rw [hrun, readPaths_append, readPaths_serve, ht]
    rfl
  · have hstep : step w .STARTING .start = some (.SERVING srv) := by simp [step, h]
    simp only [exec, hstep]
    exact exec_serving_requests w srv reqs
  · rw [hresp, responses_length]
  · intro r1 h1 r2 h2
    rw [hresp] at h1 h2
    rw [mem_responses srv reqs r1 h1, mem_responses srv reqs r2 h2]
    exact ⟨rfl, rfl, rfl, rfl, rfl⟩

/-- C7 at `node loading-server.js` with `PORT` unset. -/
theorem page_loaded_once_witness :
    ∃ p, filePath plainWorld = some p ∧ plainWorld.readFileSync p = some loadingPage ∧
      (∃ rest, (main plainWorld).1 =
          .readFileSync p :: .createServer :: .listen (port plainWorld) :: rest ∧
        readPaths rest = []) ∧
      ∀ reqs : List IncomingMessage,
        readPaths (run plainWorld reqs) = [p] ∧
        (Server.serve ⟨loadingPage, .num 8080⟩ reqs).1 = ⟨loadingPage, .num 8080⟩ ∧
        (Server.serve ⟨loadingPage, .num 8080⟩ reqs).1.html = loadingPage ∧
        exec plainWorld .STARTING (.start :: reqs.map Event.request) =
          some (.SERVING ⟨loadingPage, .num 8080⟩) ∧
        (responses plainWorld reqs).length = reqs.length ∧
        ∀ r1 ∈ responses plainWorld reqs, ∀ r2 ∈ responses plainWorld reqs,
          r1 = r2 ∧ r1.statusCode = r2.statusCode ∧ r1.headers = r2.headers ∧
          r1.body = r2.body ∧ r1.body = loadingPage :=
  page_loaded_once plainWorld (main plainWorld).1 ⟨loadingPage, .num 8080⟩ (by decide)

/-- C8, as stated, fails when `PORT` is `0`: the bind succeeds, the one line
logged is `Loading page server listening on port 0`, the resolved port, while
the port in use is 38885; the line does not state the port in use. -/
theorem log_line_not_port_in_use_counterexample :
    zeroPortWorld.envPORT = some "0" ∧
    (main zeroPortWorld).2 = .serving ⟨loadingPage, .str "0"⟩ ∧
    logs (main zeroPortWorld).1 = ["Loading page server listening on port 0"] ∧
    portInUse zeroPortWorld = some 38885 ∧
    logs (main zeroPortWorld).1 ≠ ["Loading page server listening on port 38885"] := by
  decide

/-- C8, amended: when the top level ends with a listening server, exactly one
line has been logged, the text `Loading page server listening on port `
followed by the resolved port: `Loading page server listening on port 8080`
when `PORT` is unset or empty, and the text followed by the `PORT` string
otherwise; it comes right after the `listening` event, with nothing logged
before. The line is the same whatever port the socket is bound to, and it
states the port in use when the resolved port is the decimal text of that
port. When the top level ends with an error nothing has been logged; and the
handler logs nothing, so that after any sequence of requests the log still
holds that one line. -/
theorem one_log_line (w : World) :
    (∀ t srv, main w = (t, .serving srv) →
      logs t = ["Loading page server listening on port " ++ (port w).toStr] ∧
      srv.port = port w ∧
      (∃ before, t = before ++ [.listening,
          .consoleLog ("Loading page server listening on port " ++ (port w).toStr)] ∧
        logs before = []) ∧
      (w.envPORT = none ∨ w.envPORT = some "" →
        logs t = ["Loading page server listening on port 8080"]) ∧
      (∀ s, w.envPORT = some s → s ≠ "" →
        logs t = ["Loading page server listening on port " ++ s]) ∧
      (∀ n, portInUse w = some n → (port w).toStr = toString n →
        logs t = ["Loading page server listening on port " ++ toString n]) ∧
      ∀ reqs, logs (srv.serve reqs).2 = [] ∧
        logs (run w reqs) = ["Loading page server listening on port " ++ (port w).toStr]) ∧
    (∀ f, logs (main { w with boundPort := f }).1 = logs (main w).1) ∧
    (∀ t e, main w = (t, .fatal e) → logs t = [] ∧ ∀ reqs, logs (run w reqs) = []) ∧
    (∀ html req, logs (handler html req) = []) := by
  refine ⟨?_, fun f => by rw [main_boundPort], ?_, fun html req => rfl⟩
  · intro t srv h
    obtain ⟨p, _, _, _, hport, ht⟩ := main_serving_inv w t srv h
    have hlogs : logs t = [logLine (port w)] := by
      rw [ht]
      rfl
    refine ⟨hlogs, hport, ⟨[.readFileSync p, .createServer, .listen (port w)], ?_, rfl⟩,
      ?_, ?_, ?_, ?_⟩
    · rw [ht]
      rfl
    · intro hu
      have hp8080 : port w = .num 8080 := by
        rcases hu with hu | hu
        · exact port_of_none w hu
        · exact port_of_empty w hu
      rw [hlogs, hp8080, logLine_default]
    · intro s hs hne
      rw [hlogs, port_of_env w s hs hne, logLine_str]
    · intro n _ hn
      rw [hlogs, logLine, hn]
    · intro reqs
      refine ⟨logs_serve srv reqs, ?_⟩
      have hrun : run w reqs = t ++ (srv.serve reqs).2 := by simp [run, h]
      rw [hrun, logs_append, logs_serve, hlogs]
      rfl
  · intro t e h
    have hlogs : logs t = [] := by
      obtain ⟨p, _, hc⟩ := main_cases w
      rcases hc with ⟨_, hm⟩ | ⟨_, _, _, hm⟩ | ⟨_, _, _, hm⟩
      · rw [hm] at h
        simp only [Prod.mk.injEq] at h
        rw [← h.1]
        rfl
      · rw [hm] at h
        simp only [Prod.mk.injEq] at h
        rw [← h.1]
        rfl
      · rw [hm] at h
        simp at h
    refine ⟨hlogs, ?_⟩
    intro reqs
    have hrun : run w reqs = t := by simp [run, h]
    rw [hrun, hlogs]

/-- C8, amended, with `PORT` unset, with `PORT=9090` after two requests, and
with a rejected bind. -/
theorem one_log_line_witness :
    (plainWorld.envPORT = none ∧
      logs (main plainWorld).1 = ["Loading page server listening on port 8080"]) ∧
    (customWorld.envPORT = some "9090" ∧
      logs (main customWorld).1 = ["Loading page server listening on port " ++ "9090"]) ∧
    (portInUse customWorld = some 9090 ∧
      logs (main customWorld).1 = ["Loading page server listening on port " ++ toString 9090]) ∧
    logs (run customWorld [getRoot, postAnything]) =
      ["Loading page server listening on port 9090"] ∧
    logs (main busyWorld).1 = [] :=
  have h0 := (one_log_line plainWorld).1 (main plainWorld).1 ⟨loadingPage, .num 8080⟩
    (by decide)
  have h1 := (one_log_line customWorld).1 (main customWorld).1 ⟨[79, 75], .str "9090"⟩
    (by decide)
  have h2 := (one_log_line busyWorld).2.2.1 (main busyWorld).1 (.bindError (.str "80"))
    (by decide)
  ⟨⟨by decide, h0.2.2.2.1 (Or.inl (by decide))⟩,
   ⟨by decide, h1.2.2.2.2.1 "9090" (by decide) (by decide)⟩,
   ⟨by decide, h1.2.2.2.2.2.1 9090 (by decide) (by decide)⟩,
   (h1.2.2.2.2.2.2 [getRoot, postAnything]).2, h2.1⟩

/-- C9, as stated, fails when the bind is rejected: the file load succeeds,
and the process moves from `STARTING` to `FAILED`, not to `SERVING`. -/
theorem start_bind_rejected_counterexample :
    (filePath busyWorld).bind busyWorld.readFileSync = some loadingPage ∧
    step busyWorld .STARTING .start = some (.FAILED (.bindError (.str "80"))) ∧
    ¬ ∃ srv, step busyWorld .STARTING .start = some (.SERVING srv) := by
  refine ⟨by decide, by decide, ?_⟩
  rintro ⟨srv, h⟩
  have h2 : step busyWorld .STARTING .start = some (.FAILED (.bindError (.str "80"))) := by
    decide
  rw [h2] at h
  simp at h

/-- C9, amended: from `STARTING` the process moves to `SERVING` whenever the
file load and the bind both succeed, and to `FAILED` whenever the file read
fails, or the bind is rejected; `FAILED` is terminal; from `SERVING` every
request leads to the same `SERVING` state and no step leads anywhere else;
the move to `SERVING` happens once: a run from `STARTING` that ends in
`SERVING` is one start followed by requests only. -/
theorem lifecycle_steps (w : World) :
    (∀ p html, filePath w = some p → w.readFileSync p = some html → w.bind (port w) = true →
      step w .STARTING .start = some (.SERVING ⟨html, port w⟩)) ∧
    (∀ p, filePath w = some p → w.readFileSync p = none →
      step w .STARTING .start = some (.FAILED (.readError p))) ∧
    (∀ p html, filePath w = some p → w.readFileSync p = some html → w.bind (port w) = false →
      step w .STARTING .start = some (.FAILED (.bindError (port w)))) ∧
    (∀ e ev, step w (.FAILED e) ev = none) ∧
    (∀ srv req, step w (.SERVING srv) (.request req) = some (.SERVING srv)) ∧
    (∀ srv ev ph, step w (.SERVING srv) ev = some ph → ph = .SERVING srv) ∧
    (∀ srv evs ph, exec w (.SERVING srv) evs = some ph → ph = .SERVING srv) ∧
    (∀ evs srv, exec w .STARTING evs = some (.SERVING srv) →
      ∃ reqs : List IncomingMessage, evs = .start :: reqs.map Event.request) := by
  refine ⟨?_, ?_, ?_, step_failed w, step_serving_request w, ?_, ?_, ?_⟩
  · intro p html hp hr hb
    simp [step, main_of_listening w p html hp hr hb]
  · intro p hp hr
    simp [step, main_of_read_error w p hp hr]
  · intro p html hp hr hb
    simp [step, main_of_bind_error w p html hp hr hb]
  · intro srv ev ph h
    cases ev with
    | start => simp [step] at h
    | request req =>
      rw [step_serving_request] at h
      exact (Option.some.inj h).symm
  · intro srv evs ph h
    exact (exec_serving w srv evs ph h).1
  · intro evs srv h
    cases evs with
    | nil => simp [exec] at h
    | cons ev evs =>
      cases ev with
      | request req => simp [exec, step] at h
      | start =>
        cases hs : step w .STARTING .start with
        | none => simp [exec, hs] at h
        | some ph1 =>
          simp only [exec, hs] at h
          cases ph1 with
          | STARTING =>
            exfalso
            simp only [step] at hs
            split at hs <;> simp at hs
          | FAILED e =>
            have := (exec_failed w e evs _ h).1
            simp at this
          | SERVING srv1 =>
            obtain ⟨_, reqs, hreqs⟩ := exec_serving w srv1 evs _ h
            exact ⟨reqs, by rw [hreqs]⟩

/-- C9, amended, on a successful start, a missing file and a rejected bind. -/
theorem lifecycle_steps_witness :
    step plainWorld .STARTING .start = some (.SERVING ⟨loadingPage, port plainWorld⟩) ∧
    step missingWorld .STARTING .start =
      some (.FAILED (.readError "/srv/scripts/nope.html")) ∧
    step busyWorld .STARTING .start = some (.FAILED (.bindError (port busyWorld))) ∧
    (∃ reqs : List IncomingMessage,
      [Event.start, .request getRoot, .request postAnything] =
        .start :: reqs.map Event.request) :=
  ⟨(lifecycle_steps plainWorld).1 "/srv/scripts/loading-page.html" loadingPage
      (by decide) (by decide) (by decide),
   (lifecycle_steps missingWorld).2.1 "/srv/scripts/nope.html" (by decide) (by decide),
   (lifecycle_steps busyWorld).2.2.1 "/srv/scripts/loading-page.html" loadingPage
      (by decide) (by decide) (by decide),
   (lifecycle_steps plainWorld).2.2.2.2.2.2.2
      [Event.start, .request getRoot, .request postAnything] ⟨loadingPage, .num 8080⟩
      (by decide)⟩

end LoadingServer
